import Mathlib

/-!
Verification development for the Arihant Automobiles e-commerce backend
(src/main.py, src/schemas.py). The FastAPI endpoints are embedded as pure
Lean functions over an explicit document-store state: the product
collection is a list of id/document pairs, the order collection a list of
order documents. Python exceptions are embedded as explicit error values;
an unhandled exception surfaces as Outcome.crash, an HTTPException as
Outcome.http. MongoDB ObjectId parsing is embedded as a 24-hex-digit
well-formedness check. Floats carry no arithmetic in the code paths under
study, so prices and totals are embedded as integers.
-/

/-- HTTPException values raised in main.py, tagged by status code. -/
inductive ApiError where
  | badRequest (msg : String)
  | notFound (msg : String)
  | unauthorized (msg : String)
  | serverError (msg : String)
  deriving DecidableEq, Repr

/-- Result of one request: a response, an HTTPException surfaced to the
client, or an unhandled Python exception (surfaced as a 500 by the
framework). -/
inductive Outcome (α : Type) where
  | ok (a : α)
  | http (e : ApiError)
  | crash (msg : String)
  deriving DecidableEq, Repr

/-- Fate of an HTTP request made to the deployed app: when the module-
level import of main.py failed, the server is down and the request
receives no response at all; otherwise the endpoint body produces one. -/
inductive ServerResult (α : Type) where
  | down
  | answered (r : Outcome α)
  deriving DecidableEq, Repr

/-- Exceptions that can be raised inside a try block of main.py: a bson
InvalidId from the ObjectId constructor, or an HTTPException. -/
inductive PyExc where
  | invalidId
  | http (e : ApiError)
  deriving DecidableEq, Repr

/-- Value bound to the x_admin_key parameter of require_admin when it is
called: the string of a request header, an absent header (None), or the
fastapi Header parameter object itself. The endpoints of main.py write
the plain call require_admin() as a default argument (lines 130, 150,
167, 206) with no Depends wrapper, so the one call that ever happens is
at module import, with x_admin_key holding the Header parameter object,
a value equal to no string. -/
inductive HeaderVal where
  | absent
  | str (s : String)
  | paramObject
  deriving DecidableEq, Repr

/-- Hex digit test for ObjectId well-formedness (0-9, a-f, A-F). -/
def isHexDigit (c : Char) : Bool :=
  c.isDigit || (97 ≤ c.toNat && c.toNat ≤ 102) || (65 ≤ c.toNat && c.toNat ≤ 70)

/-- Embedding of the bson ObjectId constructor succeeding on a string: a
24-character hexadecimal string. ObjectId(s) in main.py raises InvalidId
exactly when this is false. -/
def isValidObjectId (s : String) : Bool :=
  s.toList.length == 24 && s.toList.all isHexDigit

/-- Lowercase hex digit character for a value below 16. -/
def hexChar (k : Nat) : Char :=
  if k < 10 then Char.ofNat (48 + k) else Char.ofNat (87 + k)

/-- Modelled from the spec: the document store generates a fresh unique
identifier per inserted record, represented externally as its string form
(glossary: Identifier). We embed generation as the 24-hex-digit rendering
of an insertion counter. -/
def genId (n : Nat) : String :=
  String.mk (((List.range 24).reverse).map (fun i => hexChar (n / 16 ^ i % 16)))

/-- Pydantic schema Product (src/schemas.py lines 11-21). -/
structure Product where
  title : String
  description : Option String
  price : Int
  category : String
  brand : Option String
  images : List String
  stock : Int
  specifications : List (String × String)
  featured : Bool
  deriving DecidableEq, Repr

/-- Pydantic field constraints on Product: price ge 0, stock ge 0. -/
def Product.valid (p : Product) : Prop :=
  0 ≤ p.price ∧ 0 ≤ p.stock

/-- A product document as stored in the product collection: the schema
fields plus the server-stamped last-modified time set by update_product
(main.py line 154). -/
structure PDoc where
  title : String
  description : Option String
  price : Int
  category : String
  brand : Option String
  images : List String
  stock : Int
  specifications : List (String × String)
  featured : Bool
  updated_at : Option Nat
  deriving DecidableEq, Repr

/-- Document built from a create/update payload (pydantic model_dump). -/
def Product.toDoc (p : Product) : PDoc :=
  ⟨p.title, p.description, p.price, p.category, p.brand, p.images, p.stock,
    p.specifications, p.featured, none⟩

/-- Response model ProductOut (main.py lines 28-41): the schema fields
plus the id string; extra stored fields such as updated_at are dropped by
response serialization. -/
structure ProductOut where
  id : String
  title : String
  description : Option String
  price : Int
  category : String
  brand : Option String
  images : List String
  stock : Int
  specifications : List (String × String)
  featured : Bool
  deriving DecidableEq, Repr

/-- Serialization of a stored document to the response model, with the
underscore-id surfaced as the id string (main.py line 143). -/
def PDoc.toOut (pid : String) (d : PDoc) : ProductOut :=
  ⟨pid, d.title, d.description, d.price, d.category, d.brand, d.images,
    d.stock, d.specifications, d.featured⟩

/-- The ProductOut fields other than the added identifier, as a Product. -/
def ProductOut.body (o : ProductOut) : Product :=
  ⟨o.title, o.description, o.price, o.category, o.brand, o.images, o.stock,
    o.specifications, o.featured⟩

/-- The product collection: pairs of ObjectId string and document. -/
abbrev ProductCol : Type := List (String × PDoc)

/-- Embedding of find_one on the product collection by underscore-id:
first document whose id equals pid. -/
def findProduct (col : ProductCol) (pid : String) : Option PDoc :=
  (List.find? (fun e => decide (e.1 = pid)) col).map Prod.snd

/-- Stock of the document a given id resolves to, if any. -/
def stockOf (col : ProductCol) (pid : String) : Option Int :=
  (findProduct col pid).map PDoc.stock

/-- Embedding of update_one with an inc of minus q on the stock field
(main.py line 199): the first document matching pid has its stock
decremented; no match means no change. -/
def decStock (col : ProductCol) (pid : String) (q : Int) : ProductCol :=
  match col with
  | [] => []
  | (i, d) :: rest =>
    if i = pid then (i, { d with stock := d.stock - q }) :: rest
    else (i, d) :: decStock rest pid q

/-- Embedding of find_one_and_update with a set of all payload fields
(main.py lines 155-159): replace the first document matching pid. -/
def setDoc (col : ProductCol) (pid : String) (d : PDoc) : ProductCol :=
  match col with
  | [] => []
  | (i, e) :: rest =>
    if i = pid then (i, d) :: rest
    else (i, e) :: setDoc rest pid d

/-- Embedding of delete_one by underscore-id (main.py line 170): remove
the first document matching pid. -/
def removeDoc (col : ProductCol) (pid : String) : ProductCol :=
  match col with
  | [] => []
  | (i, e) :: rest =>
    if i = pid then rest else (i, e) :: removeDoc rest pid

/-- Admin check require_admin (main.py lines 63-70). The environment
value of ADMIN_API_KEY is env (none when unset). A falsy configured
value (unset or empty) returns True unconditionally; otherwise any
x_admin_key other than the configured string raises 401. -/
def require_admin (env : Option String) (x_admin_key : HeaderVal) : Except ApiError Bool :=
  match env with
  | none => Except.ok true
  | some k =>
    if k = "" then Except.ok true
    else if x_admin_key = HeaderVal.str k then Except.ok true
    else Except.error (ApiError.unauthorized "Invalid admin key")

/-- Import of main.py. Each gated endpoint definition evaluates its
default argument _=require_admin() exactly once, at module import, with
x_admin_key bound to the Header parameter object; there is no Depends
wrapper, so the check is never a per-request dependency. With a
non-empty secret configured, the Header object differs from the secret
and the call raises during import, so the app never starts; otherwise
the default evaluates to True once and the endpoint bodies carry no
admin check at all. -/
def import_main (env : Option String) : Except ApiError Unit :=
  match require_admin env HeaderVal.paramObject with
  | Except.error e => Except.error e
  | Except.ok _ => Except.ok ()

/-- Case-insensitive substring test, embedding a mongo regex match with
the i option for a plain (metacharacter-free) pattern. -/
def containsCI (hay q : String) : Bool :=
  decide ((q.toList.map Char.toLower) <:+: (hay.toList.map Char.toLower))

/-- Text filter of list_products (main.py lines 113-117): the query is an
or of case-insensitive matches against title and description; a missing
description field cannot match. -/
def matchesQ (q : String) (d : PDoc) : Bool :=
  containsCI d.title q ||
    (match d.description with
     | some dsc => containsCI dsc q
     | none => false)

/-- Mongo filter document built by list_products (main.py lines 112-121):
the text clause applies only when q is truthy (present and non-empty),
the category clause only when category is truthy, the featured clause
whenever featured is not None; applied clauses conjoin. -/
def productMatches (qo co : Option String) (fo : Option Bool) (d : PDoc) : Bool :=
  (match qo with
   | some s => if s = "" then true else matchesQ s d
   | none => true)
  && (match co with
      | some c => if c = "" then true else decide (d.category = c)
      | none => true)
  && (match fo with
      | some b => d.featured == b
      | none => true)

/-- Endpoint GET /api/products (main.py lines 103-126): filter the
collection, truncate to limit, serialize each document. -/
def list_products (col : ProductCol) (qo co : Option String) (fo : Option Bool)
    (limit : Nat) : List ProductOut :=
  ((col.filter (fun e => productMatches qo co fo e.2)).take limit).map
    (fun e => PDoc.toOut e.1 e.2)

/-- FastAPI default for the limit query parameter of list_products. -/
def list_products_default (col : ProductCol) (qo co : Option String)
    (fo : Option Bool) : List ProductOut :=
  list_products col qo co fo 100

/-- Body of POST /api/products (main.py lines 129-132): create_document
inserts the payload and returns the new id. The underscore parameter of
the source holds the import-time default True, so the body performs no
admin check for the request. Modelled from the spec: create_document
lives in database.py, which is not part of the sources; per spec section
4.1, Create(product) inserts and returns the new identifier. The
insertion counter ctr drives fresh id generation. -/
def create_product (col : ProductCol) (ctr : Nat) (payload : Product) :
    Outcome String × ProductCol × Nat :=
  (Outcome.ok (genId ctr), col ++ [(genId ctr, payload.toDoc)], ctr + 1)

/-- Body of the try block of GET /api/products/id (main.py lines
139-144): parse the id (InvalidId exception on failure), look the
document up, raise a 404 HTTPException when absent, otherwise serialize. -/
def get_product_try (col : ProductCol) (pid : String) : Except PyExc ProductOut :=
  if isValidObjectId pid then
    match findProduct col pid with
    | none => Except.error (PyExc.http (ApiError.notFound "Product not found"))
    | some d => Except.ok (d.toOut pid)
  else Except.error PyExc.invalidId

/-- Endpoint GET /api/products/id (main.py lines 135-146). The bare
except Exception clause catches every exception raised in the try block,
including the 404 HTTPException, and answers 400. -/
def get_product (col : ProductCol) (pid : String) : Outcome ProductOut :=
  match get_product_try col pid with
  | Except.ok v => Outcome.ok v
  | Except.error _ => Outcome.http (ApiError.badRequest "Invalid product id")

/-- Body of PUT /api/products/id (main.py lines 149-163): ObjectId
parsing with no surrounding try (failure is an unhandled exception),
then find_one_and_update setting all payload fields plus updated_at, 404
when no document matched. The underscore parameter of the source holds
the import-time default, so no admin check runs for the request. -/
def update_product (col : ProductCol) (pid : String) (payload : Product)
    (now : Nat) : Outcome ProductOut × ProductCol :=
  if isValidObjectId pid then
    match findProduct col pid with
    | none => (Outcome.http (ApiError.notFound "Product not found"), col)
    | some _ =>
      let d := { payload.toDoc with updated_at := some now }
      (Outcome.ok (d.toOut pid), setDoc col pid d)
  else (Outcome.crash "InvalidId", col)

/-- Body of DELETE /api/products/id (main.py lines 166-173): ObjectId
parsing with no surrounding try, delete_one, 404 when the deleted count
is zero. The underscore parameter of the source holds the import-time
default, so no admin check runs for the request. -/
def delete_product (col : ProductCol) (pid : String) : Outcome Bool × ProductCol :=
  if isValidObjectId pid then
    match findProduct col pid with
    | none => (Outcome.http (ApiError.notFound "Product not found"), col)
    | some _ => (Outcome.ok true, removeDoc col pid)
  else (Outcome.crash "InvalidId", col)

/-- Request to POST /api/products against the deployed app: when the
module import failed (a secret was configured) the server is not
running, so whatever the request header carries, no response is
produced; when the module import succeeded, the body answers with the
request header never consulted. -/
def serve_create_product (env : Option String) (_hdr : HeaderVal) (col : ProductCol)
    (ctr : Nat) (payload : Product) : ServerResult String × ProductCol × Nat :=
  match import_main env with
  | Except.error _ => (ServerResult.down, col, ctr)
  | Except.ok _ =>
    (ServerResult.answered (create_product col ctr payload).1,
      (create_product col ctr payload).2)

/-- Request to PUT /api/products/id against the deployed app; the
request header is never consulted. -/
def serve_update_product (env : Option String) (_hdr : HeaderVal) (col : ProductCol)
    (pid : String) (payload : Product) (now : Nat) : ServerResult ProductOut × ProductCol :=
  match import_main env with
  | Except.error _ => (ServerResult.down, col)
  | Except.ok _ =>
    (ServerResult.answered (update_product col pid payload now).1,
      (update_product col pid payload now).2)

/-- Request to DELETE /api/products/id against the deployed app; the
request header is never consulted. -/
def serve_delete_product (env : Option String) (_hdr : HeaderVal) (col : ProductCol)
    (pid : String) : ServerResult Bool × ProductCol :=
  match import_main env with
  | Except.error _ => (ServerResult.down, col)
  | Except.ok _ =>
    (ServerResult.answered (delete_product col pid).1, (delete_product col pid).2)

/-- Pydantic schema OrderItem (src/schemas.py lines 24-29); quantity has
constraint ge 1. -/
structure OrderItem where
  product_id : String
  title : String
  price : Int
  quantity : Int
  image : Option String
  deriving DecidableEq, Repr

/-- Pydantic schema Customer (src/schemas.py lines 32-39). -/
structure Customer where
  name : String
  email : String
  phone : Option String
  address : String
  city : Option String
  state : Option String
  postal_code : Option String
  deriving DecidableEq, Repr

/-- Pydantic schema Order (src/schemas.py lines 42-49). -/
structure Order where
  items : List OrderItem
  customer : Customer
  subtotal : Int
  shipping : Int
  total : Int
  status : String
  notes : Option String
  deriving DecidableEq, Repr

/-- Construction of an Order from a request body, applying the pydantic
field defaults of src/schemas.py lines 45-49: shipping defaults to 0 and
status to the string pending when the caller supplies none. -/
def Order.make (items : List OrderItem) (customer : Customer) (subtotal : Int)
    (shipping : Option Int) (total : Int) (status : Option String)
    (notes : Option String) : Order :=
  ⟨items, customer, subtotal, shipping.getD 0, total, status.getD "pending", notes⟩

/-- An order document as stored in the order collection: the generated
identifier, the creation timestamp the store stamps on insertion
(modelled from the spec, section 6: orders list newest first by creation
time), and the submitted order fields. -/
structure OrderDoc where
  oid : String
  created_at : Nat
  order : Order
  deriving DecidableEq, Repr

/-- Response model OrderOut (main.py lines 44-49). -/
structure OrderOut where
  id : String
  total : Int
  status : String
  items : List OrderItem
  customer : Customer
  deriving DecidableEq, Repr

/-- Serialization of a stored order document to the response model. -/
def OrderDoc.toOut (d : OrderDoc) : OrderOut :=
  ⟨d.oid, d.order.total, d.order.status, d.order.items, d.order.customer⟩

/-- Validation of one line item, embedding one iteration of the first
loop of create_order (main.py lines 185-195): ObjectId parsing failure is
caught by the except Exception clause and becomes a 400 with the fixed
message; a missing product and insufficient stock raise 400
HTTPExceptions that the except HTTPException clause re-raises unchanged. -/
def validateItem (ps : ProductCol) (it : OrderItem) : Option ApiError :=
  if isValidObjectId it.product_id then
    match findProduct ps it.product_id with
    | none => some (ApiError.badRequest ("Product not found: " ++ it.product_id))
    | some d =>
      if d.stock < it.quantity then
        some (ApiError.badRequest ("Insufficient stock for " ++ d.title))
      else none
  else some (ApiError.badRequest "Invalid product id in order")

/-- The validation loop of create_order: first failing item aborts the
whole order with that items reason; no state is touched. -/
def validateItems (ps : ProductCol) : List OrderItem → Option ApiError
  | [] => none
  | it :: rest =>
    match validateItem ps it with
    | some e => some e
    | none => validateItems ps rest

/-- The deduction loop of create_order (main.py lines 198-199): one
update_one per item decrementing stock by the item quantity. -/
def deductAll (ps : ProductCol) (items : List OrderItem) : ProductCol :=
  items.foldl (fun s it => decStock s it.product_id it.quantity) ps

/-- Total quantity the order requests of one product id across all its
line items. -/
def itemsQty (items : List OrderItem) (pid : String) : Int :=
  ((items.filter (fun it => decide (it.product_id = pid))).map OrderItem.quantity).sum

/-- Endpoint POST /api/orders (main.py lines 179-202): validate every
line item, then deduct stock per item, then insert the order document and
return its generated identifier. Insertion is modelled from the spec:
create_document lives in database.py, which is not part of the sources;
per spec section 4.2 phase 3, it inserts the order document, stamps the
creation time and returns the generated identifier. The result carries
the response, the product collection, the order collection and the
insertion counter after the request. -/
def create_order (ps : ProductCol) (os : List OrderDoc) (ctr : Nat) (now : Nat)
    (order : Order) : Outcome String × ProductCol × List OrderDoc × Nat :=
  match validateItems ps order.items with
  | some e => (Outcome.http e, ps, os, ctr)
  | none =>
    (Outcome.ok (genId ctr), deductAll ps order.items,
      os ++ [⟨genId ctr, now, order⟩], ctr + 1)

/-- Descending sort on creation time, embedding sort by created_at with
direction minus one of list_orders (main.py line 209). -/
def orderDocsSorted (os : List OrderDoc) : List OrderDoc :=
  os.mergeSort (fun a b => Nat.ble b.created_at a.created_at)

/-- Body of GET /api/orders (main.py lines 205-212): sort by created_at
descending, truncate to limit, serialize. The underscore parameter of
the source holds the import-time default, so no admin check runs for the
request. -/
def list_orders (os : List OrderDoc) (limit : Nat) : Outcome (List OrderOut) :=
  Outcome.ok (((orderDocsSorted os).take limit).map OrderDoc.toOut)

/-- FastAPI default for the limit query parameter of list_orders. -/
def list_orders_default (os : List OrderDoc) : Outcome (List OrderOut) :=
  list_orders os 100

/-- Request to GET /api/orders against the deployed app; the request
header is never consulted. -/
def serve_list_orders (env : Option String) (_hdr : HeaderVal) (os : List OrderDoc)
    (limit : Nat) : ServerResult (List OrderOut) :=
  match import_main env with
  | Except.error _ => ServerResult.down
  | Except.ok _ => ServerResult.answered (list_orders os limit)

/-- Sample product from the worked example of the spec, section 8. -/
def sampleProduct : Product :=
  ⟨"Alloy Wheel", none, 5000, "Accessories", some "Arihant", [], 10, [], false⟩

/-- A well-formed ObjectId string used in concrete scenarios. -/
def samplePid : String := "0123456789abcdef01234567"

/-- The sample product as a stored document. -/
def sampleDoc : PDoc := sampleProduct.toDoc

/-- Sample customer record. -/
def sampleCustomer : Customer :=
  ⟨"Asha", "asha@example.com", none, "12 MG Road", none, none, none⟩

/-- Line item referencing the sample product id with quantity 1. -/
def missingItem : OrderItem := ⟨samplePid, "Alloy Wheel", 5000, 1, none⟩

/-- Order holding only missingItem, submitted against an empty store. -/
def missingOrder : Order :=
  Order.make [missingItem] sampleCustomer 5000 none 5000 none none

/-- Line items for the duplicate-reference counterexample. -/
def dupItemA : OrderItem := ⟨samplePid, "Alloy Wheel", 5000, 2, none⟩

/-- Second line item referencing the same product. -/
def dupItemB : OrderItem := ⟨samplePid, "Alloy Wheel", 5000, 3, none⟩

/-- Order whose two line items reference the same product. -/
def dupOrder : Order :=
  Order.make [dupItemA, dupItemB] sampleCustomer 25000 none 25000 none none

/-- Store holding the sample product with stock 10. -/
def dupPs : ProductCol := [(samplePid, sampleDoc)]

/-- Order of two units of the sample product, per the spec example. -/
def twoUnitOrder : Order :=
  Order.make [⟨samplePid, "Alloy Wheel", 5000, 2, none⟩] sampleCustomer
    10000 none 10000 none none

/-- Sample stored order document for concrete listing scenarios. -/
def sampleOrderDoc : OrderDoc := ⟨genId 0, 5, twoUnitOrder⟩

/-- Line item asking for six units of the sample product. -/
def sixItem : OrderItem := ⟨samplePid, "Alloy Wheel", 5000, 6, none⟩

/-- Order asking twice for six units of the sample product. -/
def negOrder : Order :=
  Order.make [sixItem, sixItem] sampleCustomer 60000 none 60000 none none

/-- Stored document marked featured, for concrete listing scenarios. -/
def featuredDoc : PDoc := { sampleDoc with featured := true }

/-- Stored document whose title differs from the query only by case. -/
def upperDoc : PDoc := { sampleDoc with title := "ALLOY Wheel" }

/-- Every hex digit character produced by hexChar is a hex digit. -/
theorem hexChar_isHexDigit : ∀ k, k < 16 → isHexDigit (hexChar k) = true := by decide

/-- Generated identifiers are well-formed ObjectId strings. -/
theorem isValidObjectId_genId (n : Nat) : isValidObjectId (genId n) = true := by
  have hlen : (genId n).toList.length = 24 := by
    simp [genId, String.toList]
  have hall : ∀ c ∈ (genId n).toList, isHexDigit c = true := by
    intro c hc
    simp only [genId, String.toList] at hc
    simp only [List.mem_map] at hc
    obtain ⟨i, _, rfl⟩ := hc
    exact hexChar_isHexDigit _ (Nat.mod_lt _ (by norm_num))
  unfold isValidObjectId
  rw [hlen]
  simp only [beq_self_eq_true, Bool.true_and]
  exact List.all_eq_true.mpr hall

/-- Looking up a fresh id in a collection extended with a document under
that id finds exactly that document. -/
theorem findProduct_append_fresh (col : ProductCol) (pid : String) (d : PDoc)
    (h : pid ∉ col.map Prod.fst) :
    findProduct (col ++ [(pid, d)]) pid = some d := by
  unfold findProduct
  rw [List.find?_append]
  have h1 : List.find? (fun e => decide (e.1 = pid)) col = none := by
    rw [List.find?_eq_none]
    intro e he
    simp only [decide_eq_true_eq]
    intro he1
    exact h (List.mem_map.mpr ⟨e, he, he1⟩)
  simp [h1, List.find?]

/-- Effect of one stock decrement on lookups: the targeted id (when
present) loses q stock, every other id is untouched. -/
theorem stockOf_decStock (col : ProductCol) (pid pid2 : String) (q : Int) :
    stockOf (decStock col pid q) pid2 =
      if pid2 = pid then (stockOf col pid2).map (fun s => s - q)
      else stockOf col pid2 := by
  induction col with
  | nil =>
    simp only [decStock, stockOf, findProduct, List.find?, Option.map_none]
    split <;> rfl
  | cons e rest ih =>
    obtain ⟨i, d⟩ := e
    simp only [decStock]
    rcases eq_or_ne i pid with h1 | h1
    · rcases eq_or_ne pid2 i with h2 | h2
      · subst h1
        subst h2
        simp [stockOf, findProduct, List.find?]
      · subst h1
        have h2s : i ≠ pid2 := h2.symm
        simp [stockOf, findProduct, List.find?, h2, h2s]
    · rcases eq_or_ne pid2 i with h2 | h2
      · subst h2
        have h1s : pid2 ≠ pid := h1
        simp [stockOf, findProduct, List.find?, h1s]
      · have h2s : i ≠ pid2 := h2.symm
        rw [if_neg h1]
        simp only [stockOf, findProduct, List.find?] at ih ⊢
        simp only [h2s, decide_eq_false, Bool.false_eq_true]
        simp [h2s]
        simpa [h2s] using ih

/-- Unfolding of the per-product ordered quantity over a cons. -/
theorem itemsQty_cons (it : OrderItem) (rest : List OrderItem) (pid : String) :
    itemsQty (it :: rest) pid =
      (if it.product_id = pid then it.quantity else 0) + itemsQty rest pid := by
  by_cases h : it.product_id = pid <;> simp [itemsQty, List.filter_cons, h]

/-- The deduction loop subtracts, from each product present in the
collection, the total quantity the order requests of it; absent ids stay
absent. -/
theorem stockOf_deductAll (items : List OrderItem) (ps : ProductCol) (pid : String) :
    stockOf (deductAll ps items) pid =
      (stockOf ps pid).map (fun s => s - itemsQty items pid) := by
  induction items generalizing ps with
  | nil =>
    simp only [deductAll, List.foldl_nil, itemsQty, List.filter_nil, List.map_nil,
      List.sum_nil]
    cases stockOf ps pid <;> simp
  | cons it rest ih =>
    have hstep : deductAll ps (it :: rest) =
        deductAll (decStock ps it.product_id it.quantity) rest := rfl
    rw [hstep, ih, stockOf_decStock, itemsQty_cons]
    rcases eq_or_ne pid it.product_id with h | h
    · rw [if_pos h, if_pos h.symm]
      cases stockOf ps pid <;> simp [sub_sub]
    · rw [if_neg h, if_neg (fun hc => h hc.symm)]
      cases stockOf ps pid <;> simp

/-- A line item passing all three checks of the validation loop. -/
theorem validateItem_eq_none (ps : ProductCol) (it : OrderItem)
    (hv : isValidObjectId it.product_id = true) (d : PDoc)
    (hd : findProduct ps it.product_id = some d) (hq : it.quantity ≤ d.stock) :
    validateItem ps it = none := by
  simp [validateItem, hv, hd, if_neg (not_lt.mpr hq)]

/-- A line item whose product id is malformed, resolves to nothing, or
resolves to a product with insufficient stock fails the validation loop. -/
theorem validateItem_ne_none (ps : ProductCol) (it : OrderItem)
    (h : isValidObjectId it.product_id = false ∨ findProduct ps it.product_id = none ∨
      ∃ d, findProduct ps it.product_id = some d ∧ d.stock < it.quantity) :
    validateItem ps it ≠ none := by
  unfold validateItem
  rcases h with h | h | ⟨d, hd, hlt⟩
  · simp [h]
  · cases hv : isValidObjectId it.product_id <;> simp [h]
  · cases hv : isValidObjectId it.product_id
    · simp
    · simp [hd, hlt]

/-- The validation loop accepts an order whose items all pass. -/
theorem validateItems_eq_none (ps : ProductCol) (items : List OrderItem)
    (h : ∀ it ∈ items, validateItem ps it = none) : validateItems ps items = none := by
  induction items with
  | nil => rfl
  | cons it rest ih =>
    have h1 : validateItem ps it = none := h it (by simp)
    simp only [validateItems, h1]
    exact ih fun x hx => h x (List.mem_cons_of_mem _ hx)

/-- The validation loop rejects an order as soon as any item of it fails,
whatever its position. -/
theorem validateItems_ne_none (ps : ProductCol) (items : List OrderItem)
    (it : OrderItem) (hmem : it ∈ items) (hfail : validateItem ps it ≠ none) :
    validateItems ps items ≠ none := by
  induction items with
  | nil => cases hmem
  | cons x rest ih =>
    simp only [validateItems]
    cases hx : validateItem ps x with
    | some e => simp
    | none =>
      rcases List.mem_cons.mp hmem with rfl | hm
      · exact absurd hx hfail
      · exact ih hm

/-- Claim C1: if any line item of a submitted order fails validation
(malformed product id, unresolved product, or stock below the requested
quantity), order creation fails as a whole: the product collection, the
order collection and the insertion counter are all left untouched, so no
stock is mutated and no order document is persisted. -/
theorem order_validation_failure_aborts_whole_order
    (ps : ProductCol) (os : List OrderDoc) (ctr now : Nat) (order : Order)
    (h : ∃ it ∈ order.items,
      isValidObjectId it.product_id = false ∨
      findProduct ps it.product_id = none ∨
      ∃ d, findProduct ps it.product_id = some d ∧ d.stock < it.quantity) :
    ∃ e, create_order ps os ctr now order = (Outcome.http e, ps, os, ctr) := by
  obtain ⟨it, hmem, hcond⟩ := h
  have hne := validateItems_ne_none ps order.items it hmem (validateItem_ne_none ps it hcond)
  rcases hv : validateItems ps order.items with _ | e
  · exact absurd hv hne
  · exact ⟨e, by simp [create_order, hv]⟩

/-- Witness for C1: an order referencing a product absent from an empty
store is rejected and both collections stay empty. -/
theorem order_validation_failure_aborts_whole_order_witness :
    ∃ e, create_order [] [] 0 0 missingOrder = (Outcome.http e, [], [], 0) :=
  order_validation_failure_aborts_whole_order [] [] 0 0 missingOrder
    ⟨missingItem, by decide, Or.inr (Or.inl (by decide))⟩

/-- Counterexample to claim C2 as stated: an order with two line items
referencing the same product (quantities 2 and 3 against stock 10)
satisfies the hypothesis that every item references an existing product
with stock at least the item quantity, and creation succeeds, yet the
stored stock does not decrease by exactly any single items quantity: it
decreases by their sum. -/
theorem create_order_per_item_deduction_counterexample :
    (∀ it ∈ dupOrder.items, isValidObjectId it.product_id = true ∧
      ∃ d, findProduct dupPs it.product_id = some d ∧ it.quantity ≤ d.stock)
    ∧ (create_order dupPs [] 0 0 dupOrder).1 = Outcome.ok (genId 0)
    ∧ ¬ (∀ it ∈ dupOrder.items,
        stockOf (create_order dupPs [] 0 0 dupOrder).2.1 it.product_id =
          (stockOf dupPs it.product_id).map (fun s => s - it.quantity)) := by
  refine ⟨?_, by decide, by decide⟩
  intro it hit
  have hcases : it = dupItemA ∨ it = dupItemB := by
    simpa [dupOrder, Order.make] using hit
  rcases hcases with rfl | rfl
  · exact ⟨by decide, sampleDoc, by decide, by decide⟩
  · exact ⟨by decide, sampleDoc, by decide, by decide⟩

/-- Claim C2 (amended): when every line item of an order carries a
well-formed id of an existing product whose stock is at least the item
quantity, order creation succeeds and returns the generated identifier,
the order document is appended to the order collection, the stored stock
of every product decreases by exactly the total quantity the order
requests of it across all its line items (which is exactly the items
quantity when a single item references it), and an order whose caller
supplied no status carries the default status pending. -/
theorem create_order_success_deducts_total_and_persists
    (ps : ProductCol) (os : List OrderDoc) (ctr now : Nat) (order : Order)
    (h : ∀ it ∈ order.items, isValidObjectId it.product_id = true ∧
      ∃ d, findProduct ps it.product_id = some d ∧ it.quantity ≤ d.stock) :
    create_order ps os ctr now order =
      (Outcome.ok (genId ctr), deductAll ps order.items,
        os ++ [⟨genId ctr, now, order⟩], ctr + 1)
    ∧ (∀ pid, stockOf (deductAll ps order.items) pid =
        (stockOf ps pid).map (fun s => s - itemsQty order.items pid))
    ∧ (∀ its c sub sh tot nts,
        (Order.make its c sub sh tot none nts).status = "pending") := by
  refine ⟨?_, fun pid => stockOf_deductAll _ _ _, fun _ _ _ _ _ _ => rfl⟩
  have hnone : validateItems ps order.items = none :=
    validateItems_eq_none ps order.items fun it hit => by
      obtain ⟨hv, d, hd, hq⟩ := h it hit
      exact validateItem_eq_none ps it hv d hd hq
  simp [create_order, hnone]

/-- Witness for C2: ordering two units of the sample product (stock 10)
succeeds, and the stored stock becomes 8; the order status defaults to
pending. -/
theorem create_order_success_deducts_total_and_persists_witness :
    (create_order dupPs [] 0 7 twoUnitOrder).1 = Outcome.ok (genId 0)
    ∧ stockOf (create_order dupPs [] 0 7 twoUnitOrder).2.1 samplePid = some 8
    ∧ twoUnitOrder.status = "pending" := by
  have h := create_order_success_deducts_total_and_persists dupPs [] 0 7 twoUnitOrder
    (by
      intro it hit
      have hone : it = (⟨samplePid, "Alloy Wheel", 5000, 2, none⟩ : OrderItem) := by
        simpa [twoUnitOrder, Order.make] using hit
      subst hone
      exact ⟨by decide, sampleDoc, by decide, by decide⟩)
  refine ⟨?_, ?_, by decide⟩
  · rw [h.1]
  · rw [h.1]
    decide

/-- Claim C5: an order with two line items referencing the same product,
each quantity individually at most the current stock but their sum above
it, is accepted, and the deduction leaves the stored stock negative:
validation checks every item against the same stored stock value and
never against the aggregate quantity per product. -/
theorem duplicate_items_drive_stock_negative
    (ps : ProductCol) (os : List OrderDoc) (ctr now : Nat) (order : Order)
    (pid : String) (d : PDoc) (it1 it2 : OrderItem)
    (hitems : order.items = [it1, it2])
    (h1 : it1.product_id = pid) (h2 : it2.product_id = pid)
    (hv : isValidObjectId pid = true) (hd : findProduct ps pid = some d)
    (hq1 : it1.quantity ≤ d.stock) (hq2 : it2.quantity ≤ d.stock)
    (hsum : d.stock < it1.quantity + it2.quantity) :
    (create_order ps os ctr now order).1 = Outcome.ok (genId ctr)
    ∧ stockOf (create_order ps os ctr now order).2.1 pid =
        some (d.stock - (it1.quantity + it2.quantity))
    ∧ d.stock - (it1.quantity + it2.quantity) < 0 := by
  have hnone : validateItems ps order.items = none := by
    rw [hitems]
    refine validateItems_eq_none _ _ fun it hit => ?_
    have hcases : it = it1 ∨ it = it2 := by simpa using hit
    rcases hcases with rfl | rfl
    · exact validateItem_eq_none ps it (by rw [h1]; exact hv) d (by rw [h1]; exact hd) hq1
    · exact validateItem_eq_none ps it (by rw [h2]; exact hv) d (by rw [h2]; exact hd) hq2
  have hco : create_order ps os ctr now order =
      (Outcome.ok (genId ctr), deductAll ps order.items,
        os ++ [⟨genId ctr, now, order⟩], ctr + 1) := by
    simp [create_order, hnone]
  refine ⟨by rw [hco], ?_, by omega⟩
  rw [hco]
  show stockOf (deductAll ps order.items) pid = _
  rw [hitems, stockOf_deductAll]
  have hst : stockOf ps pid = some d.stock := by simp [stockOf, hd]
  rw [hst]
  have hqty : itemsQty [it1, it2] pid = it1.quantity + it2.quantity := by
    simp [itemsQty_cons, itemsQty, h1, h2]
  simp [hqty]

/-- Witness for C5: stock 10, two line items of six units each; the order
is accepted and the stored stock ends at minus 2. -/
theorem duplicate_items_drive_stock_negative_witness :
    (create_order dupPs [] 0 0 negOrder).1 = Outcome.ok (genId 0)
    ∧ stockOf (create_order dupPs [] 0 0 negOrder).2.1 samplePid =
        some (sampleDoc.stock - (sixItem.quantity + sixItem.quantity))
    ∧ sampleDoc.stock - (sixItem.quantity + sixItem.quantity) < 0 :=
  duplicate_items_drive_stock_negative dupPs [] 0 0 negOrder samplePid sampleDoc
    sixItem sixItem rfl rfl rfl (by decide) (by decide) (by decide) (by decide)
    (by decide)

/-- Claim C3: single-product retrieval is meant to answer 404 for a
well-formed id matching no record and 400 for a malformed id, but the
bare except Exception clause of get_product also catches the 404
HTTPException raised inside the try block: on a well-formed unmatched id
the try body does raise the not-found signal, yet the endpoint answers
the bad-request signal, conflating the two. -/
theorem get_product_conflates_missing_with_malformed :
    isValidObjectId samplePid = true
    ∧ get_product_try [] samplePid =
        Except.error (PyExc.http (ApiError.notFound "Product not found"))
    ∧ get_product [] samplePid = Outcome.http (ApiError.badRequest "Invalid product id")
    ∧ get_product [] "not-hex" = Outcome.http (ApiError.badRequest "Invalid product id") := by
  exact ⟨by decide, rfl, by decide, by decide⟩

/-- Claim C4: the claimed per-request admin gate does not exist in the
program. The gated endpoints bind _=require_admin() as a plain default
argument (main.py lines 130, 150, 167, 206), evaluated exactly once at
module import with x_admin_key holding the Header parameter object. With
a secret configured, that one call raises during import and the app
never starts, so every request - even one carrying the correct secret -
goes unanswered rather than receiving the unauthorized signal; with no
secret configured, the default evaluates to True once, and the gated
endpoints answer every request with the header never consulted. -/
theorem admin_gate_never_runs_per_request :
    require_admin (some "secret") HeaderVal.paramObject =
      Except.error (ApiError.unauthorized "Invalid admin key")
    ∧ import_main (some "secret") =
        Except.error (ApiError.unauthorized "Invalid admin key")
    ∧ serve_create_product (some "secret") (HeaderVal.str "secret") [] 0 sampleProduct =
        (ServerResult.down, [], 0)
    ∧ serve_create_product (some "secret") HeaderVal.absent [] 0 sampleProduct =
        (ServerResult.down, [], 0)
    ∧ serve_update_product (some "secret") HeaderVal.absent [] samplePid sampleProduct 0 =
        (ServerResult.down, [])
    ∧ serve_delete_product (some "secret") HeaderVal.absent [] samplePid =
        (ServerResult.down, [])
    ∧ serve_list_orders (some "secret") HeaderVal.absent [] 100 = ServerResult.down
    ∧ (serve_create_product none (HeaderVal.str "wrong") [] 0 sampleProduct).1 =
        ServerResult.answered (Outcome.ok (genId 0))
    ∧ serve_list_orders none (HeaderVal.str "wrong") [] 100 =
        ServerResult.answered (Outcome.ok []) := by
  refine ⟨rfl, rfl, rfl, rfl, rfl, rfl, rfl, rfl, ?_⟩
  simp [serve_list_orders, import_main, require_admin, list_orders, orderDocsSorted]

/-- Claim C6: creating a valid product and fetching it under the returned
identifier yields the same record with only the identifier field added;
the generated identifier is fresh for the collection and surfaced as a
string. -/
theorem create_then_get_roundtrip
    (col : ProductCol) (ctr : Nat) (p : Product)
    (_hvalid : p.valid)
    (hfresh : genId ctr ∉ col.map Prod.fst) :
    (create_product col ctr p).1 = Outcome.ok (genId ctr)
    ∧ get_product (create_product col ctr p).2.1 (genId ctr) =
        Outcome.ok (PDoc.toOut (genId ctr) p.toDoc)
    ∧ (PDoc.toOut (genId ctr) p.toDoc).body = p
    ∧ (PDoc.toOut (genId ctr) p.toDoc).id = genId ctr := by
  refine ⟨rfl, ?_, rfl, rfl⟩
  show get_product (col ++ [(genId ctr, p.toDoc)]) (genId ctr) = _
  unfold get_product get_product_try
  rw [findProduct_append_fresh _ _ _ hfresh]
  simp [isValidObjectId_genId]

/-- Witness for C6: creating the sample product in an empty store and
fetching it back returns exactly its fields plus the identifier. -/
theorem create_then_get_roundtrip_witness :
    (create_product [] 0 sampleProduct).1 = Outcome.ok (genId 0)
    ∧ get_product (create_product [] 0 sampleProduct).2.1 (genId 0) =
        Outcome.ok (PDoc.toOut (genId 0) sampleProduct.toDoc)
    ∧ (PDoc.toOut (genId 0) sampleProduct.toDoc).body = sampleProduct
    ∧ (PDoc.toOut (genId 0) sampleProduct.toDoc).id = genId 0 :=
  create_then_get_roundtrip [] 0 sampleProduct ⟨by decide, by decide⟩ (by decide)

/-- Claim C10: on a malformed id the update and delete endpoints evaluate
the ObjectId constructor outside any try block, so the InvalidId
exception propagates unhandled (a server error), unlike the bad-request
signal single-product retrieval gives the same id; their not-found branch
is reachable only for a well-formed id matching no record. -/
theorem update_delete_malformed_id_crashes
    (col : ProductCol) (pid : String) (payload : Product) (now : Nat)
    (hbad : isValidObjectId pid = false) :
    (update_product col pid payload now).1 = Outcome.crash "InvalidId"
    ∧ (delete_product col pid).1 = Outcome.crash "InvalidId"
    ∧ get_product col pid = Outcome.http (ApiError.badRequest "Invalid product id")
    ∧ (∀ pid2, (update_product col pid2 payload now).1 =
          Outcome.http (ApiError.notFound "Product not found") →
        isValidObjectId pid2 = true ∧ findProduct col pid2 = none)
    ∧ (∀ pid2, (delete_product col pid2).1 =
          Outcome.http (ApiError.notFound "Product not found") →
        isValidObjectId pid2 = true ∧ findProduct col pid2 = none) := by
  refine ⟨by simp [update_product, hbad], by simp [delete_product, hbad],
    by simp [get_product, get_product_try, hbad], ?_, ?_⟩
  · intro pid2 h
    cases hv : isValidObjectId pid2
    · simp [update_product, hv] at h
    · cases hf : findProduct col pid2
      · exact ⟨rfl, rfl⟩
      · simp [update_product, hv, hf] at h
  · intro pid2 h
    cases hv : isValidObjectId pid2
    · simp [delete_product, hv] at h
    · cases hf : findProduct col pid2
      · exact ⟨rfl, rfl⟩
      · simp [delete_product, hv, hf] at h

/-- Witness for C10: with the gate open, updating or deleting under a
non-hex id crashes with the unhandled InvalidId exception while retrieval
answers 400. -/
theorem update_delete_malformed_id_crashes_witness :
    (update_product [] "not-hex" sampleProduct 0).1 = Outcome.crash "InvalidId"
    ∧ (delete_product [] "not-hex").1 = Outcome.crash "InvalidId"
    ∧ get_product [] "not-hex" = Outcome.http (ApiError.badRequest "Invalid product id") := by
  have h := update_delete_malformed_id_crashes [] "not-hex" sampleProduct 0 (by decide)
  exact ⟨h.1, h.2.1, h.2.2.1⟩

/-- Text clause of the built filter: constrains only a present non-empty
query. -/
theorem qClause_iff (qo : Option String) (d : PDoc) :
    (match qo with
     | some s => if s = "" then true else matchesQ s d
     | none => true) = true
    ↔ (∀ s, qo = some s → s ≠ "" → matchesQ s d = true) := by
  cases qo with
  | none => simp
  | some s =>
    by_cases hs : s = ""
    · subst hs
      simp
    · simp [hs]

/-- Category clause of the built filter: constrains only a present
non-empty category. -/
theorem cClause_iff (co : Option String) (d : PDoc) :
    (match co with
     | some c => if c = "" then true else decide (d.category = c)
     | none => true) = true
    ↔ (∀ c, co = some c → c ≠ "" → d.category = c) := by
  cases co with
  | none => simp
  | some c =>
    by_cases hc : c = ""
    · subst hc
      simp
    · simp [hc]

/-- Featured clause of the built filter: constrains exactly when the flag
is supplied. -/
theorem fClause_iff (fo : Option Bool) (d : PDoc) :
    (match fo with
     | some b => d.featured == b
     | none => true) = true
    ↔ (∀ b, fo = some b → d.featured = b) := by
  cases fo <;> simp

/-- Claim C7: listing with featured true returns only records whose
featured field is true; with every filter omitted the listing returns the
collection truncated to the limit, regardless of featured values; and the
built filter is the conjunction of the applied clauses, an omitted clause
imposing no constraint. -/
theorem list_products_filters_spec :
    (∀ (col : ProductCol) (limit : Nat) (po : ProductOut),
      po ∈ list_products col none none (some true) limit → po.featured = true)
    ∧ (∀ (col : ProductCol) (limit : Nat),
      list_products col none none none limit =
        (col.take limit).map (fun e => PDoc.toOut e.1 e.2))
    ∧ (∀ (qo co : Option String) (fo : Option Bool) (d : PDoc),
      productMatches qo co fo d = true ↔
        ((∀ s, qo = some s → s ≠ "" → matchesQ s d = true)
         ∧ (∀ c, co = some c → c ≠ "" → d.category = c)
         ∧ (∀ b, fo = some b → d.featured = b))) := by
  refine ⟨?_, ?_, ?_⟩
  · intro col limit po hm
    obtain ⟨e, he, rfl⟩ := List.mem_map.mp hm
    have hf := (List.mem_filter.mp (List.mem_of_mem_take he)).2
    simp only [productMatches, Bool.and_eq_true, beq_iff_eq] at hf
    exact hf.2
  · intro col limit
    unfold list_products
    have hff : List.filter (fun e => productMatches none none none e.2) col = col :=
      List.filter_eq_self.mpr fun a _ => rfl
    rw [hff]
  · intro qo co fo d
    unfold productMatches
    rw [Bool.and_eq_true, Bool.and_eq_true, and_assoc]
    exact and_congr (qClause_iff qo d)
      (and_congr (cClause_iff co d) (fClause_iff fo d))

/-- Witness for C7: the featured document survives the featured filter
with its flag true, and an unfiltered listing of the empty store is
empty. -/
theorem list_products_filters_spec_witness :
    (PDoc.toOut samplePid featuredDoc).featured = true
    ∧ list_products [] none none none 3 = [] := by
  constructor
  · exact list_products_filters_spec.1 [(samplePid, featuredDoc)] 3 _ (by decide)
  · have h := list_products_filters_spec.2.1 [] 3
    simpa using h

/-- Claim C8: a non-empty text query matches a record whenever the
lowercased query characters are a contiguous substring of the lowercased
title or of the lowercased description, so a record matching only under a
different letter case still passes the filter, and is returned whenever
the collection fits the limit. -/
theorem text_search_case_insensitive
    (col : ProductCol) (q : String) (limit : Nat) (e : String × PDoc)
    (hmem : e ∈ col) (hq : q ≠ "")
    (hmatch : (q.toList.map Char.toLower) <:+: (e.2.title.toList.map Char.toLower)
      ∨ ∃ dsc, e.2.description = some dsc ∧
          (q.toList.map Char.toLower) <:+: (dsc.toList.map Char.toLower)) :
    matchesQ q e.2 = true
    ∧ (col.length ≤ limit →
        PDoc.toOut e.1 e.2 ∈ list_products col (some q) none none limit) := by
  have hmq : matchesQ q e.2 = true := by
    unfold matchesQ containsCI
    rcases hmatch with h | ⟨dsc, hdsc, h⟩
    · have h2 : List.map Char.toLower q.data <:+: List.map Char.toLower e.2.title.data := h
      simp [h2]
    · have h2 : List.map Char.toLower q.data <:+: List.map Char.toLower dsc.data := h
      simp [hdsc, h2]
  refine ⟨hmq, fun hlen => ?_⟩
  unfold list_products
  have hpm : productMatches (some q) none none e.2 = true := by
    simp [productMatches, hq, hmq]
  have hf : e ∈ col.filter (fun x => productMatches (some q) none none x.2) :=
    List.mem_filter.mpr ⟨hmem, hpm⟩
  have hl : (col.filter (fun x => productMatches (some q) none none x.2)).length ≤ limit :=
    le_trans (List.length_filter_le _ _) hlen
  rw [List.take_of_length_le hl]
  exact List.mem_map.mpr ⟨e, hf, rfl⟩

/-- Witness for C8: the query alloy, lowercased, occurs in the lowercased
title ALLOY Wheel, and the record is returned. -/
theorem text_search_case_insensitive_witness :
    matchesQ "alloy" upperDoc = true
    ∧ PDoc.toOut samplePid upperDoc ∈
        list_products [(samplePid, upperDoc)] (some "alloy") none none 5 := by
  have h := text_search_case_insensitive [(samplePid, upperDoc)] "alloy" 5
    (samplePid, upperDoc) (by decide) (by decide) (Or.inl (by decide))
  exact ⟨h.1, h.2 (by decide)⟩

/-- Claim C9: order listing returns the order documents sorted by
creation time newest first, truncated to the limit (default 100), drawn
from the stored collection. -/
theorem list_orders_sorted_and_limited
    (os : List OrderDoc) (limit : Nat) :
    list_orders os limit =
      Outcome.ok (((orderDocsSorted os).take limit).map OrderDoc.toOut)
    ∧ List.Pairwise (fun a b => b.created_at ≤ a.created_at)
        ((orderDocsSorted os).take limit)
    ∧ ((orderDocsSorted os).take limit).length ≤ limit
    ∧ (∀ d ∈ (orderDocsSorted os).take limit, d ∈ os)
    ∧ list_orders_default os = list_orders os 100 := by
  refine ⟨rfl, ?_, ?_, ?_, rfl⟩
  · have hs := @List.sorted_mergeSort OrderDoc
      (fun a b => Nat.ble b.created_at a.created_at)
      (by intro a b c hab hbc; simp only [Nat.ble_eq] at *; omega)
      (by intro a b; simp only [Bool.or_eq_true, Nat.ble_eq]; omega) os
    have hp := List.Pairwise.sublist (List.take_sublist limit _) hs
    exact hp.imp fun h => by simpa [Nat.ble_eq] using h
  · rw [List.length_take]
    exact min_le_left _ _
  · intro d hd
    exact (List.mergeSort_perm os _).mem_iff.mp (List.mem_of_mem_take hd)

/-- Witness for C9: listing a one-document order collection returns that
document serialized, and the membership conjunct places it in the stored
collection. -/
theorem list_orders_sorted_and_limited_witness :
    list_orders [sampleOrderDoc] 1 = Outcome.ok [sampleOrderDoc.toOut]
    ∧ sampleOrderDoc ∈ [sampleOrderDoc] := by
  have h := list_orders_sorted_and_limited [sampleOrderDoc] 1
  have hmem : sampleOrderDoc ∈ (orderDocsSorted [sampleOrderDoc]).take 1 := by
    simp [orderDocsSorted]
  refine ⟨?_, h.2.2.2.1 sampleOrderDoc hmem⟩
  rw [h.1]
  simp [orderDocsSorted]
